import Mathlib

/-!
Verification development for the progressive deployment orchestrator
(`scripts/ci/progressive-deployment.py`).

The Python orchestrator is shallowly embedded: each method of
`ProgressiveDeploymentManager` becomes a Lean function.  External
collaborator calls (Play-Store rollout update, deployment verification,
internal-track deployment, production promotion, and the monitoring
time-series query) are modelled as an explicit environment `Env` of
oracles; an oracle returning `Except.error e` models the underlying call
raising an exception with message `e`.  Python floats are modelled as
`Rat` (only order comparisons and one small average occur).  Wall-clock
time is abstracted: `duration_seconds` fields are fixed to `0`, the
monitoring loop's poll count is the number of poll boundaries the window
admits (`num_polls`), and a logical clock `t : Nat` is threaded through
execution so that each poll reads the backend at a distinct instant.
-/

namespace ProgressiveDeployment

/-- Deployment strategies, from the `DeploymentStrategy` enum. -/
inductive DeploymentStrategy where
  | canary
  | blue_green
  | gradual
  | immediate
deriving DecidableEq

/-- Stage statuses, from the `DeploymentStatus` enum. -/
inductive DeploymentStatus where
  | pending
  | in_progress
  | success
  | failed
  | rolled_back
deriving DecidableEq

/-- Health metric for deployment monitoring, from the `HealthMetric` dataclass. -/
structure HealthMetric where
  name : String
  current_value : Rat
  threshold : Rat
  comparison : String
  is_healthy : Bool
deriving DecidableEq

/-- Deployment result, from the `DeploymentResult` dataclass. -/
structure DeploymentResult where
  stage : String
  status : DeploymentStatus
  metrics : List HealthMetric
  duration_seconds : Rat
  error_message : Option String
deriving DecidableEq

/-- One entry of the gradual strategy's `stages` configuration list
(`{"percentage": ..., "duration": ...}`, duration in hours). -/
structure StageConfig where
  percentage : Nat
  duration : Nat
deriving DecidableEq

/-- The `rollback_triggers` configuration dictionary: per-metric override
thresholds keyed by strings such as `"crash_rate_threshold"`, plus
`max_unhealthy_metrics`. -/
structure RollbackTriggers where
  overrides : List (String × Rat)
  max_unhealthy_metrics : Option Nat
deriving DecidableEq

instance : Inhabited RollbackTriggers := ⟨⟨[], none⟩⟩

/-- The deployment configuration dictionary.  A field is `none` when the
corresponding key is absent, mirroring `config.get(key, default)`. -/
structure Config where
  canary_percentage : Option Nat
  monitoring_duration : Option Nat
  stages : Option (List StageConfig)
  propagation_time : Option Nat
  check_interval : Option Nat
  health_checks : Option (List String)
  rollback_triggers : Option RollbackTriggers

/-- Result dictionary `{success: bool, error?: str}` returned by the
rollout / track collaborator wrappers. -/
structure CallResult where
  success : Bool
  error : Option String
deriving DecidableEq

/-- A monitoring-backend response for one query: the time-series point
values (`Except.ok`), or the query call raising (`Except.error`). -/
def QueryResponse := Except String (List Rat)

/-- A snapshot of the monitoring backend: metric type and version label
to response. -/
def QuerySource := String → String → Except String (List Rat)

/-- The external collaborators of the orchestrator.  `Except.error e`
models the underlying call raising an exception with message `e`.
`query` takes a logical instant, so each monitoring poll may observe a
different backend state. -/
structure Env where
  update_rollout : String → Nat → Except String Unit
  verify : String → Nat → Except String Bool
  deploy_internal : String → Except String Unit
  promote_production : String → Except String Unit
  query : Nat → String → String → Except String (List Rat)

/-- Method `_update_play_store_rollout`: the external call either
succeeds (`{"success": True}`) or its exception is caught and rendered
as `{"success": False, "error": str(e)}`. -/
def update_play_store_rollout (env : Env) (version : String) (percentage : Nat) : CallResult :=
  match env.update_rollout version percentage with
  | .ok _ => ⟨true, none⟩
  | .error e => ⟨false, some e⟩

/-- Method `_deploy_to_internal_track`, same try/except shape. -/
def deploy_to_internal_track (env : Env) (version : String) : CallResult :=
  match env.deploy_internal version with
  | .ok _ => ⟨true, none⟩
  | .error e => ⟨false, some e⟩

/-- Method `_promote_to_production_track`, same try/except shape. -/
def promote_to_production_track (env : Env) (version : String) : CallResult :=
  match env.promote_production version with
  | .ok _ => ⟨true, none⟩
  | .error e => ⟨false, some e⟩

/-- Method `_verify_deployment`: returns the verification verdict, and
degrades an exception in the verification call to `False`. -/
def verify_deployment (env : Env) (version : String) (percentage : Nat) : Bool :=
  match env.verify version percentage with
  | .ok b => b
  | .error _ => false

/-- Method `_get_previous_version` (placeholder in the source). -/
def get_previous_version : String := "1.0.0"

/-- Method `_query_metric`: averages the returned point values; returns
`0.0` when there are no points or when the query call raises (the
method's own catch-all). -/
def query_metric (q : QuerySource) (metric_type : String) (version : String) : Rat :=
  match q metric_type version with
  | .error _ => 0
  | .ok values => if values.length = 0 then 0 else values.sum / values.length

/-- Method `_check_crash_rate` (threshold 1.0, less_than).  Its
`except` branch is unreachable because `_query_metric` never raises. -/
def check_crash_rate (q : QuerySource) (version : String) : HealthMetric :=
  let crash_rate := query_metric q "custom.googleapis.com/pose_coach/crash_rate" version
  ⟨"crash_rate", crash_rate, 1, "less_than", decide (crash_rate < 1)⟩

/-- Method `_check_error_rate` (threshold 2.0, less_than). -/
def check_error_rate (q : QuerySource) (version : String) : HealthMetric :=
  let error_rate := query_metric q "custom.googleapis.com/pose_coach/error_rate" version
  ⟨"error_rate", error_rate, 2, "less_than", decide (error_rate < 2)⟩

/-- Method `_check_response_time` (threshold 500.0, less_than). -/
def check_response_time (q : QuerySource) (version : String) : HealthMetric :=
  let response_time := query_metric q "custom.googleapis.com/pose_coach/api_response_time" version
  ⟨"response_time", response_time, 500, "less_than", decide (response_time < 500)⟩

/-- Method `_check_user_satisfaction` (threshold 4.0; the source labels
the comparison `greater_than` but computes `score >= threshold`). -/
def check_user_satisfaction (q : QuerySource) (version : String) : HealthMetric :=
  let satisfaction_score := query_metric q "custom.googleapis.com/pose_coach/user_satisfaction" version
  ⟨"user_satisfaction", satisfaction_score, 4, "greater_than", decide (4 ≤ satisfaction_score)⟩

/-- Method `_check_memory_usage` (threshold 512.0, less_than). -/
def check_memory_usage (q : QuerySource) (version : String) : HealthMetric :=
  let memory_usage := query_metric q "custom.googleapis.com/pose_coach/memory_usage" version
  ⟨"memory_usage", memory_usage, 512, "less_than", decide (memory_usage < 512)⟩

/-- Method `_check_cpu_usage` (threshold 70.0, less_than). -/
def check_cpu_usage (q : QuerySource) (version : String) : HealthMetric :=
  let cpu_usage := query_metric q "custom.googleapis.com/pose_coach/cpu_usage" version
  ⟨"cpu_usage", cpu_usage, 70, "less_than", decide (cpu_usage < 70)⟩

/-- Method `_run_health_check`: dispatch on the check name; an unknown
name yields the default healthy metric `HealthMetric(name, 0, 0,
"less_than", True)`. -/
def run_health_check (q : QuerySource) (check_name : String) (version : String) : HealthMetric :=
  match check_name with
  | "crash_rate" => check_crash_rate q version
  | "error_rate" => check_error_rate q version
  | "response_time" => check_response_time q version
  | "user_satisfaction" => check_user_satisfaction q version
  | "memory_usage" => check_memory_usage q version
  | "cpu_usage" => check_cpu_usage q version
  | _ => ⟨check_name, 0, 0, "less_than", true⟩

/-- Method `_should_trigger_rollback`: a critical metric (`crash_rate`,
`error_rate`) whose current value strictly exceeds its configured
rollback threshold (key `"<name>_threshold"`, default 5.0) triggers, as
does an unhealthy-metric count reaching `max_unhealthy_metrics`
(default 3). -/
def should_trigger_rollback (unhealthy_metrics : List HealthMetric) (config : Config) : Bool :=
  let rollback_config := config.rollback_triggers.getD default
  let critical_metrics := ["crash_rate", "error_rate"]
  if unhealthy_metrics.any (fun m =>
      critical_metrics.contains m.name &&
      decide (((rollback_config.overrides.lookup (m.name ++ "_threshold")).getD 5) < m.current_value)) then
    true
  else
    decide (rollback_config.max_unhealthy_metrics.getD 3 ≤ unhealthy_metrics.length)

/-- The health-check list used by `_monitor_deployment`
(`config.get("health_checks", [...])`, a four-element default). -/
def monitor_health_checks (config : Config) : List String :=
  config.health_checks.getD ["crash_rate", "error_rate", "response_time", "user_satisfaction"]

/-- The health-check list used by `_health_check_green_environment`
(`config.get("health_checks", [])`). -/
def green_health_checks (config : Config) : List String :=
  config.health_checks.getD []

/-- One monitoring poll: run every configured health check against the
backend state at instant `t`. -/
def monitor_poll (env : Env) (t : Nat) (checks : List String) (version : String) : List HealthMetric :=
  checks.map (fun check => run_health_check (env.query t) check version)

/-- The error message of a monitoring failure, from the f-string in
`_monitor_deployment`. -/
def monitor_failure_message (unhealthy_metrics : List HealthMetric) : String :=
  "Rollback triggered due to unhealthy metrics: " ++
    String.intercalate ", " (unhealthy_metrics.map (fun m => m.name))

/-- The stage name `f"monitoring_{percentage}pct"`. -/
def monitoring_stage_name (percentage : Nat) : String :=
  "monitoring_" ++ toString percentage ++ "pct"

/-- The poll loop of `_monitor_deployment`.  The fuel is the number of
poll boundaries the window admits; `t` is the logical clock,
`metrics_history` the accumulated poll history.  Returns the stage
result together with the advanced clock (which records how many polls
actually ran). -/
def monitor_loop (env : Env) (version : String) (checks : List String) (config : Config)
    (percentage : Nat) : Nat → Nat → List (List HealthMetric) → DeploymentResult × Nat
  | 0, t, metrics_history =>
      (⟨monitoring_stage_name percentage, .success, metrics_history.getLastD [], 0, none⟩, t)
  | n + 1, t, metrics_history =>
      let current_metrics := monitor_poll env t checks version
      let unhealthy_metrics := current_metrics.filter (fun m => !m.is_healthy)
      if !unhealthy_metrics.isEmpty && should_trigger_rollback unhealthy_metrics config then
        (⟨monitoring_stage_name percentage, .failed, current_metrics, 0,
          some (monitor_failure_message unhealthy_metrics)⟩, t + 1)
      else
        monitor_loop env version checks config percentage n (t + 1)
          (metrics_history ++ [current_metrics])

/-- Number of poll iterations of a `while time.time() < end_time` loop
with the given duration and `check_interval`, under the idealized clock
in which each iteration takes exactly one interval. -/
def num_polls (duration_seconds check_interval : Nat) : Nat :=
  if check_interval = 0 then 0 else (duration_seconds + check_interval - 1) / check_interval

/-- Method `_monitor_deployment`. -/
def monitor_deployment (env : Env) (version : String) (percentage duration_seconds : Nat)
    (config : Config) (t : Nat) : DeploymentResult × Nat :=
  let check_interval := config.check_interval.getD 300
  monitor_loop env version (monitor_health_checks config) config percentage
    (num_polls duration_seconds check_interval) t []

/-- Method `_deploy_to_percentage`: update the rollout, verify, and
return `Success`; any failure reaches the `raise`, whose message is the
update result's error or the generic verification message. -/
def deploy_to_percentage (env : Env) (version : String) (percentage : Nat) (stage : String)
    (_config : Config) : DeploymentResult :=
  let result := update_play_store_rollout env version percentage
  if result.success && verify_deployment env version percentage then
    ⟨stage, .success, [], 0, none⟩
  else
    ⟨stage, .failed, [], 0, some (result.error.getD "Deployment verification failed")⟩

/-- Method `_deploy_to_green_environment`. -/
def deploy_to_green_environment (env : Env) (version : String) : DeploymentResult :=
  let result := deploy_to_internal_track env version
  if result.success then
    ⟨"green_deployment", .success, [], 0, none⟩
  else
    ⟨"green_deployment", .failed, [], 0, some (result.error.getD "Green environment deployment failed")⟩

/-- Method `_health_check_green_environment`: run the configured checks
once and require all of them healthy. -/
def health_check_green_environment (env : Env) (version : String) (config : Config)
    (t : Nat) : DeploymentResult :=
  let metrics := (green_health_checks config).map (fun check => run_health_check (env.query t) check version)
  let all_healthy := metrics.all (fun m => m.is_healthy)
  ⟨"green_health_check", if all_healthy then .success else .failed, metrics, 0,
    if all_healthy then none else some "Health checks failed"⟩

/-- Method `_switch_to_green_environment`. -/
def switch_to_green_environment (env : Env) (version : String) : DeploymentResult :=
  let result := promote_to_production_track env version
  if result.success then
    ⟨"traffic_switch", .success, [], 0, none⟩
  else
    ⟨"traffic_switch", .failed, [], 0, some (result.error.getD "Traffic switch failed")⟩

/-- Method `_rollback_deployment`: restore the previous stable version
at the given percentage through the rollout collaborator. -/
def rollback_deployment (env : Env) (_version : String) (percentage : Nat) : DeploymentResult :=
  let previous_version := get_previous_version
  let result := update_play_store_rollout env previous_version percentage
  if result.success then
    ⟨"rollback", .success, [], 0, none⟩
  else
    ⟨"rollback", .failed, [], 0, some (result.error.getD "Rollback failed")⟩

/-- Method `_rollback_to_blue_environment`: reverses the traffic switch;
its body cannot fail (the `except` branch is unreachable). -/
def rollback_to_blue_environment : DeploymentResult :=
  ⟨"blue_rollback", .success, [], 0, none⟩

/-- Method `_execute_canary_deployment`. -/
def execute_canary_deployment (env : Env) (version : String) (config : Config) :
    List DeploymentResult :=
  let canary_percentage := config.canary_percentage.getD 5
  let monitoring_duration := config.monitoring_duration.getD 1800
  let canary_result := deploy_to_percentage env version canary_percentage "canary" config
  if canary_result.status ≠ .success then
    [canary_result]
  else
    let monitoring_result :=
      (monitor_deployment env version canary_percentage monitoring_duration config 0).1
    if monitoring_result.status ≠ .success then
      [canary_result, monitoring_result, rollback_deployment env version canary_percentage]
    else
      [canary_result, monitoring_result, deploy_to_percentage env version 100 "full" config]

/-- Method `_execute_blue_green_deployment`. -/
def execute_blue_green_deployment (env : Env) (version : String) (config : Config) :
    List DeploymentResult :=
  let green_result := deploy_to_green_environment env version
  if green_result.status ≠ .success then
    [green_result]
  else
    let health_result := health_check_green_environment env version config 0
    if health_result.status ≠ .success then
      [green_result, health_result]
    else
      let switch_result := switch_to_green_environment env version
      if switch_result.status ≠ .success then
        [green_result, health_result, switch_result, rollback_to_blue_environment]
      else
        [green_result, health_result, switch_result]

/-- The built-in default stage ramp of the gradual strategy. -/
def default_stages : List StageConfig :=
  [⟨1, 2⟩, ⟨5, 8⟩, ⟨25, 24⟩, ⟨50, 48⟩, ⟨100, 168⟩]

/-- The per-stage loop of `_execute_gradual_deployment`; `i` is the
zero-based stage index (stage names are one-based), `t` the logical
clock carried across the stages' monitoring windows. -/
def gradual_stages_loop (env : Env) (version : String) (config : Config) :
    Nat → Nat → List StageConfig → List DeploymentResult
  | _, _, [] => []
  | i, t, stage_config :: rest =>
      let stage_name := "gradual_stage_" ++ toString (i + 1)
      let deploy_result := deploy_to_percentage env version stage_config.percentage stage_name config
      if deploy_result.status ≠ .success then
        [deploy_result]
      else
        let mr := monitor_deployment env version stage_config.percentage
          (stage_config.duration * 3600) config t
        if mr.1.status ≠ .success then
          [deploy_result, mr.1, rollback_deployment env version stage_config.percentage]
        else
          deploy_result :: mr.1 :: gradual_stages_loop env version config (i + 1) mr.2 rest

/-- Method `_execute_gradual_deployment`. -/
def execute_gradual_deployment (env : Env) (version : String) (config : Config) :
    List DeploymentResult :=
  gradual_stages_loop env version config 0 0 (config.stages.getD default_stages)

/-- Method `_execute_immediate_deployment`. -/
def execute_immediate_deployment (env : Env) (version : String) (config : Config) :
    List DeploymentResult :=
  [deploy_to_percentage env version 100 "immediate" config]

/-- Method `execute_deployment`: dispatch on the strategy.  All four
enum members are dispatched, so for enum inputs the `else: raise`
branch of the source is unreachable. -/
def execute_deployment (env : Env) (strategy : DeploymentStrategy) (version : String)
    (config : Config) : List DeploymentResult :=
  match strategy with
  | .canary => execute_canary_deployment env version config
  | .blue_green => execute_blue_green_deployment env version config
  | .gradual => execute_gradual_deployment env version config
  | .immediate => execute_immediate_deployment env version config

/-- `execute_deployment` including the `else: raise ValueError` branch:
a strategy value outside the four enum members (modelled as `none`)
raises before any stage executes. -/
def execute_deployment_checked (env : Env) (strategy : Option DeploymentStrategy)
    (version : String) (config : Config) : Except String (List DeploymentResult) :=
  match strategy with
  | some s => .ok (execute_deployment env s version config)
  | none => .error "Unsupported deployment strategy"

/-! Concrete configurations and collaborator behaviours used by the
witnesses and counterexamples below. -/

/-- The empty configuration: every key absent, so every default applies. -/
def cfg0 : Config := ⟨none, none, none, none, none, none, none⟩

/-- Collaborators that all succeed; the monitoring backend has no data
points in the query window, so every queried value is `0.0`.  All
`less_than` checks are then healthy and `user_satisfaction` is
unhealthy (`0.0 < 4.0`) — one unhealthy non-critical metric, below the
default `max_unhealthy_metrics`, so no rollback trigger fires. -/
def envOk : Env := ⟨fun _ _ => .ok (), fun _ _ => .ok true, fun _ => .ok (), fun _ => .ok (),
  fun _ _ _ => .ok []⟩

/-- Collaborators whose rollout-update call raises. -/
def envUpdateRaises : Env := ⟨fun _ _ => .error "Play Store API unavailable",
  fun _ _ => .ok true, fun _ => .ok (), fun _ => .ok (), fun _ _ _ => .ok []⟩

/-- Collaborators whose verification call raises. -/
def envVerifyRaises : Env := ⟨fun _ _ => .ok (), fun _ _ => .error "network timeout",
  fun _ => .ok (), fun _ => .ok (), fun _ _ _ => .ok []⟩

/-- Collaborators whose production-promotion call raises. -/
def envPromoteRaises : Env := ⟨fun _ _ => .ok (), fun _ _ => .ok true, fun _ => .ok (),
  fun _ => .error "promotion failed", fun _ _ _ => .ok []⟩

/-- Collaborators over a backend whose every query raises. -/
def envQueryRaises : Env := ⟨fun _ _ => .ok (), fun _ _ => .ok true, fun _ => .ok (),
  fun _ => .ok (), fun _ _ _ => .error "monitoring backend down"⟩

/-- A configuration whose `rollback_triggers` sets
`max_unhealthy_metrics` to 1: the single unhealthy `user_satisfaction`
metric observed under `envOk` then fires the count-based rollback
trigger on the very first poll. -/
def cfgMax1 : Config := ⟨none, none, none, none, none, none, some ⟨[], some 1⟩⟩

/-- A configuration that requests only the `user_satisfaction` health
check, which is unhealthy under `envOk`. -/
def cfgSatOnly : Config := ⟨none, none, none, none, none, some ["user_satisfaction"], none⟩

/-- A user-supplied gradual stage list whose percentages decrease, with
zero-duration monitoring windows. -/
def cfgDecreasing : Config := ⟨none, none, some [⟨50, 0⟩, ⟨25, 0⟩], none, none, none, none⟩

/-- A backend reporting a 0.5% crash rate. -/
def qCrashHalf : QuerySource := fun metric_type _ =>
  if metric_type = "custom.googleapis.com/pose_coach/crash_rate" then .ok [1/2] else .ok []

/-- A backend reporting a 1.5% crash rate. -/
def qCrashThreeHalves : QuerySource := fun metric_type _ =>
  if metric_type = "custom.googleapis.com/pose_coach/crash_rate" then .ok [3/2] else .ok []

/-- A backend reporting a user-satisfaction score of exactly 4.0. -/
def qSatFour : QuerySource := fun metric_type _ =>
  if metric_type = "custom.googleapis.com/pose_coach/user_satisfaction" then .ok [4] else .ok []

/-- Whether the monitoring poll at instant `t` fires the rollback
trigger: the poll has unhealthy metrics and `_should_trigger_rollback`
returns true on them. -/
def poll_triggers (env : Env) (version : String) (checks : List String) (config : Config)
    (t : Nat) : Bool :=
  let unhealthy_metrics := (monitor_poll env t checks version).filter (fun m => !m.is_healthy)
  !unhealthy_metrics.isEmpty && should_trigger_rollback unhealthy_metrics config

/-- The failed monitoring result produced when the poll at instant `t`
fires the rollback trigger. -/
def monitor_failed_result (env : Env) (version : String) (checks : List String)
    (percentage t : Nat) : DeploymentResult :=
  let current_metrics := monitor_poll env t checks version
  ⟨monitoring_stage_name percentage, .failed, current_metrics, 0,
    some (monitor_failure_message (current_metrics.filter (fun m => !m.is_healthy)))⟩

/-- Sequence-level failure property: whenever a result with status
`Failed` occurs at position `i`, the sequence either ends there or
contains exactly one further result, a rollback stage. -/
def failed_stops (l : List DeploymentResult) : Prop :=
  ∀ i r, l.get? i = some r → r.status = .failed →
    (l.length = i + 1 ∨
      (l.length = i + 2 ∧ ∃ r2, l.get? (i + 1) = some r2 ∧
        (r2.stage = "rollback" ∨ r2.stage = "blue_rollback")))

/-- The rollout percentages of the successfully completed stages of one
canary run, in execution order, read off the executor's control flow:
the canary percentage if the canary deploy succeeded, then 100 if
monitoring and the full deploy also succeeded. -/
def canary_success_percentages (env : Env) (version : String) (config : Config) : List Nat :=
  let canary_percentage := config.canary_percentage.getD 5
  let canary_result := deploy_to_percentage env version canary_percentage "canary" config
  if canary_result.status ≠ .success then []
  else
    let monitoring_result :=
      (monitor_deployment env version canary_percentage (config.monitoring_duration.getD 1800) config 0).1
    if monitoring_result.status ≠ .success then [canary_percentage]
    else
      let full_result := deploy_to_percentage env version 100 "full" config
      if full_result.status ≠ .success then [canary_percentage] else [canary_percentage, 100]

/-- The rollout percentages of the successfully completed stages of one
gradual run, mirroring `gradual_stages_loop` stage by stage: a stage's
percentage is recorded when its deploy succeeds, and iteration stops
after a deploy or monitoring failure. -/
def gradual_success_percentages (env : Env) (version : String) (config : Config) :
    Nat → Nat → List StageConfig → List Nat
  | _, _, [] => []
  | i, t, stage_config :: rest =>
      let stage_name := "gradual_stage_" ++ toString (i + 1)
      let deploy_result := deploy_to_percentage env version stage_config.percentage stage_name config
      if deploy_result.status ≠ .success then []
      else
        let mr := monitor_deployment env version stage_config.percentage
          (stage_config.duration * 3600) config t
        if mr.1.status ≠ .success then [stage_config.percentage]
        else
          stage_config.percentage :: gradual_success_percentages env version config (i + 1) mr.2 rest

/-! Helper lemmas. -/

/-- Membership in the critical-metric list, as a proposition. -/
lemma contains_critical (s : String) :
    (["crash_rate", "error_rate"].contains s) = true ↔ (s = "crash_rate" ∨ s = "error_rate") := by
  simp [List.contains_cons]

/-- A query returning a single point averages to that point's value. -/
lemma query_metric_singleton (q : QuerySource) (metric_type version : String) (x : Rat)
    (h : q metric_type version = .ok [x]) : query_metric q metric_type version = x := by
  simp [query_metric, h]

/-- A raising query is degraded to the default value `0.0` inside
`_query_metric`, never reaching any stage boundary. -/
lemma query_metric_error (q : QuerySource) (metric_type version e : String)
    (h : q metric_type version = .error e) : query_metric q metric_type version = 0 := by
  simp [query_metric, h]

/-! Claim C1: the rollback-trigger policy. -/

/-- C1.  `_should_trigger_rollback` is a pure function of the unhealthy
metric list and the configuration (it is a Lean function of exactly
those two arguments), and it returns true iff some metric named
`crash_rate` or `error_rate` has current value strictly above its
per-metric threshold from `rollback_triggers` (default 5.0), or the
number of metrics reaches `max_unhealthy_metrics` (default 3).  With
the default config, `[crash_rate(current=6.0)]` triggers and a lone
`response_time` metric does not. -/
theorem should_trigger_rollback_spec :
    (∀ (unhealthy_metrics : List HealthMetric) (config : Config),
      should_trigger_rollback unhealthy_metrics config = true ↔
        ((∃ m ∈ unhealthy_metrics, (m.name = "crash_rate" ∨ m.name = "error_rate") ∧
            (((config.rollback_triggers.getD default).overrides.lookup (m.name ++ "_threshold")).getD 5) < m.current_value) ∨
          (config.rollback_triggers.getD default).max_unhealthy_metrics.getD 3 ≤ unhealthy_metrics.length))
    ∧ should_trigger_rollback [⟨"crash_rate", 6, 1, "less_than", false⟩] cfg0 = true
    ∧ should_trigger_rollback [⟨"response_time", 600, 500, "less_than", false⟩] cfg0 = false := by
  refine ⟨fun ms config => ?_, by decide, by decide⟩
  unfold should_trigger_rollback
  by_cases h : ms.any (fun m =>
      (["crash_rate", "error_rate"].contains m.name) &&
      decide ((((config.rollback_triggers.getD default).overrides.lookup (m.name ++ "_threshold")).getD 5) < m.current_value)) = true
  · rw [if_pos h]
    simp only [true_iff]
    left
    rw [List.any_eq_true] at h
    obtain ⟨m, hm, hp⟩ := h
    rw [Bool.and_eq_true] at hp
    exact ⟨m, hm, (contains_critical m.name).mp hp.1, of_decide_eq_true hp.2⟩
  · rw [if_neg h]
    rw [decide_eq_true_iff]
    constructor
    · exact Or.inr
    · rintro (⟨m, hm, hname, hthr⟩ | hcount)
      · refine absurd (List.any_eq_true.mpr ⟨m, hm, ?_⟩) h
        rw [Bool.and_eq_true]
        exact ⟨(contains_critical m.name).mpr hname, decide_eq_true hthr⟩
      · exact hcount

/-! Claim C5 (corrected): fail-open behaviour of health checks. -/

/-- C5 counterexample.  The claim says a failed metric query makes
`_run_health_check` return a healthy metric, but a raising query is
swallowed inside `_query_metric` into the value `0.0`, which fails the
`user_satisfaction` comparison `0.0 >= 4.0`: the returned metric is
unhealthy. -/
theorem user_satisfaction_query_failure_not_fail_open :
    (run_health_check (fun _ _ => Except.error "query failed") "user_satisfaction" "2.0.0").is_healthy
      = false := by
  decide

/-- C5 as amended.  An unknown check name yields the default healthy
metric; a metric whose `is_healthy` is true never enters a poll's
unhealthy set (so it cannot contribute to a rollback trigger); and when
the underlying metric query raises, the five `less_than` checks yield
healthy metrics (value `0.0`), while `user_satisfaction` yields an
unhealthy one. -/
theorem health_check_fail_open_spec :
    (∀ (q : QuerySource) (check_name version : String),
      check_name ∉ (["crash_rate", "error_rate", "response_time", "user_satisfaction",
        "memory_usage", "cpu_usage"] : List String) →
      run_health_check q check_name version = ⟨check_name, 0, 0, "less_than", true⟩)
    ∧ (∀ (env : Env) (t : Nat) (checks : List String) (version : String) (m : HealthMetric),
        m ∈ (monitor_poll env t checks version).filter (fun x => !x.is_healthy) →
        m.is_healthy = false)
    ∧ (∀ (e version : String),
        (check_crash_rate (fun _ _ => .error e) version).is_healthy = true ∧
        (check_error_rate (fun _ _ => .error e) version).is_healthy = true ∧
        (check_response_time (fun _ _ => .error e) version).is_healthy = true ∧
        (check_memory_usage (fun _ _ => .error e) version).is_healthy = true ∧
        (check_cpu_usage (fun _ _ => .error e) version).is_healthy = true ∧
        (check_user_satisfaction (fun _ _ => .error e) version).is_healthy = false) := by
  refine ⟨?_, ?_, ?_⟩
  · intro q check_name version h
    simp only [List.mem_cons, List.not_mem_nil, or_false, not_or] at h
    obtain ⟨h1, h2, h3, h4, h5, h6⟩ := h
    unfold run_health_check
    split
    · exact absurd rfl h1
    · exact absurd rfl h2
    · exact absurd rfl h3
    · exact absurd rfl h4
    · exact absurd rfl h5
    · exact absurd rfl h6
    · rfl
  · intro env t checks version m hm
    rw [List.mem_filter] at hm
    simpa using hm.2
  · intro e version
    refine ⟨?_, ?_, ?_, ?_, ?_, ?_⟩ <;>
      simp [check_crash_rate, check_error_rate, check_response_time, check_memory_usage,
        check_cpu_usage, check_user_satisfaction, query_metric]

/-- C5 witness: the unknown check `"gpu_usage"` yields the default
healthy metric. -/
theorem health_check_fail_open_spec_witness :
    run_health_check (fun _ _ => Except.ok []) "gpu_usage" "2.0.0"
      = ⟨"gpu_usage", 0, 0, "less_than", true⟩ :=
  health_check_fail_open_spec.1 (fun _ _ => Except.ok []) "gpu_usage" "2.0.0" (by decide)

/-! Claim C6 (corrected): health-check thresholds and directions. -/

/-- C6 counterexample.  At a queried user-satisfaction value of exactly
4.0 the source computes `4.0 >= 4.0`, i.e. healthy, whereas the claim
(`healthy iff v > 4.0`) requires unhealthy. -/
theorem user_satisfaction_boundary_counterexample :
    (check_user_satisfaction qSatFour "1.0.0").current_value = 4 ∧
    (check_user_satisfaction qSatFour "1.0.0").is_healthy = true ∧
    ¬ ((4 : Rat) < 4) := by
  have h := query_metric_singleton qSatFour
    "custom.googleapis.com/pose_coach/user_satisfaction" "1.0.0" 4 rfl
  refine ⟨?_, ?_, by norm_num⟩ <;> simp [check_user_satisfaction, h]

/-- C6 as amended.  Each named check classifies healthiness by its
fixed threshold and direction on the queried value: `crash_rate`
healthy iff v < 1.0, `error_rate` iff v < 2.0, `response_time` iff
v < 500.0, `user_satisfaction` iff v ≥ 4.0 (the source computes `>=`
although it labels the direction `greater_than`), `memory_usage` iff
v < 512.0, `cpu_usage` iff v < 70.0; and each metric's recorded current
value is the queried value.  A queried crash rate of 0.5 is healthy and
1.5 is unhealthy. -/
theorem health_check_thresholds_spec :
    (∀ (q : QuerySource) (version : String),
      ((check_crash_rate q version).is_healthy = true ↔
        query_metric q "custom.googleapis.com/pose_coach/crash_rate" version < 1) ∧
      ((check_crash_rate q version).current_value =
        query_metric q "custom.googleapis.com/pose_coach/crash_rate" version) ∧
      ((check_error_rate q version).is_healthy = true ↔
        query_metric q "custom.googleapis.com/pose_coach/error_rate" version < 2) ∧
      ((check_error_rate q version).current_value =
        query_metric q "custom.googleapis.com/pose_coach/error_rate" version) ∧
      ((check_response_time q version).is_healthy = true ↔
        query_metric q "custom.googleapis.com/pose_coach/api_response_time" version < 500) ∧
      ((check_response_time q version).current_value =
        query_metric q "custom.googleapis.com/pose_coach/api_response_time" version) ∧
      ((check_user_satisfaction q version).is_healthy = true ↔
        4 ≤ query_metric q "custom.googleapis.com/pose_coach/user_satisfaction" version) ∧
      ((check_user_satisfaction q version).current_value =
        query_metric q "custom.googleapis.com/pose_coach/user_satisfaction" version) ∧
      ((check_memory_usage q version).is_healthy = true ↔
        query_metric q "custom.googleapis.com/pose_coach/memory_usage" version < 512) ∧
      ((check_memory_usage q version).current_value =
        query_metric q "custom.googleapis.com/pose_coach/memory_usage" version) ∧
      ((check_cpu_usage q version).is_healthy = true ↔
        query_metric q "custom.googleapis.com/pose_coach/cpu_usage" version < 70) ∧
      ((check_cpu_usage q version).current_value =
        query_metric q "custom.googleapis.com/pose_coach/cpu_usage" version))
    ∧ (check_crash_rate qCrashHalf "1.0.0").is_healthy = true
    ∧ (check_crash_rate qCrashThreeHalves "1.0.0").is_healthy = false := by
  refine ⟨?_, ?_, ?_⟩
  · intro q version
    refine ⟨?_, rfl, ?_, rfl, ?_, rfl, ?_, rfl, ?_, rfl, ?_, rfl⟩ <;>
      simp [check_crash_rate, check_error_rate, check_response_time, check_user_satisfaction,
        check_memory_usage, check_cpu_usage]
  · have h := query_metric_singleton qCrashHalf
      "custom.googleapis.com/pose_coach/crash_rate" "1.0.0" (1/2) rfl
    simp [check_crash_rate, h]
    norm_num
  · have h := query_metric_singleton qCrashThreeHalves
      "custom.googleapis.com/pose_coach/crash_rate" "1.0.0" (3/2) rfl
    simp [check_crash_rate, h]
    norm_num

/-! Claim C7 (corrected): default health-check lists. -/

/-- C7 counterexample.  With `health_checks` absent, one monitoring
poll evaluates exactly the four checks `crash_rate`, `error_rate`,
`response_time`, `user_satisfaction` (not six), and the blue-green
green-environment health check evaluates no checks at all. -/
theorem default_health_checks_counterexample :
    (monitor_deployment envOk "1.0.0" 5 300 cfg0 0).1.metrics.map (fun m => m.name)
        = ["crash_rate", "error_rate", "response_time", "user_satisfaction"] ∧
    ¬ ("memory_usage" ∈ (monitor_deployment envOk "1.0.0" 5 300 cfg0 0).1.metrics.map (fun m => m.name)) ∧
    (health_check_green_environment envOk "1.0.0" cfg0 0).metrics = [] := by
  refine ⟨by decide, by decide, by decide⟩

/-- C7 as amended.  When the configuration omits `health_checks`, the
monitoring action defaults to the four checks `crash_rate`,
`error_rate`, `response_time`, `user_satisfaction`, while the
green-environment health check defaults to the empty list and hence
vacuously succeeds with no metrics. -/
theorem default_health_checks_spec :
    ∀ (config : Config), config.health_checks = none →
      monitor_health_checks config = ["crash_rate", "error_rate", "response_time", "user_satisfaction"] ∧
      green_health_checks config = [] ∧
      (∀ (env : Env) (version : String) (t : Nat),
        health_check_green_environment env version config t
          = ⟨"green_health_check", .success, [], 0, none⟩) := by
  intro config h
  refine ⟨by simp [monitor_health_checks, h], by simp [green_health_checks, h], ?_⟩
  intro env version t
  simp [health_check_green_environment, green_health_checks, h]

/-! Claim C2 (corrected): the monitoring window. -/

/-- Unfolding `monitor_loop` at fuel zero. -/
lemma monitor_loop_zero (env : Env) (version : String) (checks : List String) (config : Config)
    (percentage t : Nat) (history : List (List HealthMetric)) :
    monitor_loop env version checks config percentage 0 t history
      = (⟨monitoring_stage_name percentage, .success, history.getLastD [], 0, none⟩, t) := rfl

/-- A poll that fires the rollback trigger ends the loop immediately
with the failed result of that poll. -/
lemma monitor_loop_succ_trigger (env : Env) (version : String) (checks : List String)
    (config : Config) (percentage t n : Nat) (history : List (List HealthMetric))
    (htrig : poll_triggers env version checks config t = true) :
    monitor_loop env version checks config percentage (n + 1) t history
      = (monitor_failed_result env version checks percentage t, t + 1) := by
  unfold monitor_loop
  dsimp only
  split
  · rfl
  · next hcond => exact absurd htrig hcond

/-- A poll that does not fire the trigger appends its metrics to the
history and continues. -/
lemma monitor_loop_succ_no_trigger (env : Env) (version : String) (checks : List String)
    (config : Config) (percentage t n : Nat) (history : List (List HealthMetric))
    (hno : poll_triggers env version checks config t = false) :
    monitor_loop env version checks config percentage (n + 1) t history
      = monitor_loop env version checks config percentage n (t + 1)
          (history ++ [monitor_poll env t checks version]) := by
  conv_lhs => unfold monitor_loop
  dsimp only
  split
  · next hcond =>
      exact absurd (show poll_triggers env version checks config t = true from hcond)
        (by simp [hno])
  · rfl

/-- When no poll of the window fires the trigger, the loop runs to the
end and succeeds with the accumulated history. -/
lemma monitor_loop_no_trigger (env : Env) (version : String) (checks : List String)
    (config : Config) (percentage : Nat) :
    ∀ (n t : Nat) (history : List (List HealthMetric)),
      (∀ i, i < n → poll_triggers env version checks config (t + i) = false) →
      monitor_loop env version checks config percentage n t history
        = (⟨monitoring_stage_name percentage, .success,
            (history ++ (List.range n).map (fun i => monitor_poll env (t + i) checks version)).getLastD [],
            0, none⟩, t + n) := by
  intro n
  induction n with
  | zero => intro t history _; simp [monitor_loop_zero]
  | succ n ih =>
      intro t history hno
      rw [monitor_loop_succ_no_trigger env version checks config percentage t n history
        (by simpa using hno 0 (Nat.succ_pos n))]
      rw [ih (t + 1) (history ++ [monitor_poll env t checks version]) (fun i hi => by
        have h := hno (i + 1) (by omega)
        rwa [show t + (i + 1) = t + 1 + i by omega] at h)]
      have hfun : (fun i => monitor_poll env (t + 1 + i) checks version)
          = ((fun i => monitor_poll env (t + i) checks version) ∘ Nat.succ) := by
        funext i
        simp only [Function.comp_apply]
        congr 1
        omega
      have hlist : (history ++ [monitor_poll env t checks version])
            ++ (List.range n).map (fun i => monitor_poll env (t + 1 + i) checks version)
          = history ++ (List.range (n + 1)).map (fun i => monitor_poll env (t + i) checks version) := by
        rw [List.append_assoc]
        congr 1
        rw [List.range_succ_eq_map]
        simp only [List.map_cons, List.map_map, Nat.add_zero, List.singleton_append]
        rw [hfun]
      have hclock : t + 1 + n = t + (n + 1) := by omega
      rw [hlist, hclock]

/-- The loop stops at the first triggering poll, returning that poll's
failed result without reading any later backend state. -/
lemma monitor_loop_first_trigger (env : Env) (version : String) (checks : List String)
    (config : Config) (percentage : Nat) :
    ∀ (i n t : Nat) (history : List (List HealthMetric)), i < n →
      poll_triggers env version checks config (t + i) = true →
      (∀ j, j < i → poll_triggers env version checks config (t + j) = false) →
      monitor_loop env version checks config percentage n t history
        = (monitor_failed_result env version checks percentage (t + i), t + i + 1) := by
  intro i
  induction i with
  | zero =>
      intro n t history hi htrig _
      obtain ⟨n', rfl⟩ : ∃ n', n = n' + 1 := ⟨n - 1, by omega⟩
      rw [monitor_loop_succ_trigger env version checks config percentage t n' history htrig]
      rfl
  | succ i ih =>
      intro n t history hi htrig hmin
      obtain ⟨n', rfl⟩ : ∃ n', n = n' + 1 := ⟨n - 1, by omega⟩
      rw [monitor_loop_succ_no_trigger env version checks config percentage t n' history
        (by simpa using hmin 0 (Nat.succ_pos i))]
      have ht : poll_triggers env version checks config (t + 1 + i) = true := by
        rwa [show t + 1 + i = t + (i + 1) by omega]
      have hm : ∀ j, j < i → poll_triggers env version checks config (t + 1 + j) = false := by
        intro j hj
        have h := hmin (j + 1) (by omega)
        rwa [show t + (j + 1) = t + 1 + j by omega] at h
      rw [ih n' (t + 1) (history ++ [monitor_poll env t checks version]) (by omega) ht hm]
      rw [show t + 1 + i = t + (i + 1) by omega]

/-- C2 counterexample.  The claim says monitoring succeeds only if
every required check reported healthy on every poll, but under `envOk`
with the default config the single poll of a 300-second window contains
an unhealthy `user_satisfaction` metric (no rollback trigger fires) and
the monitoring result is still `Success`. -/
theorem monitoring_success_despite_unhealthy :
    (monitor_deployment envOk "1.0.0" 5 300 cfg0 0).1.status = .success ∧
    ((monitor_deployment envOk "1.0.0" 5 300 cfg0 0).1.metrics.all (fun m => m.is_healthy)) = false ∧
    num_polls 300 (cfg0.check_interval.getD 300) = 1 :=
  ⟨by decide, by decide, by decide⟩

/-- C2 as amended.  A monitored stage's result is `Success` iff no poll
of the window fires the rollback trigger (polls may contain unhealthy
metrics that do not meet the trigger policy); a `Success` result
carries the last poll's metrics and consumes the whole window's polls;
and if the trigger first fires at poll `i`, the result is `Failed`
immediately with poll `i`'s metrics and no later instant is polled (the
returned clock is `t + i + 1`). -/
theorem monitoring_window_spec :
    ∀ (env : Env) (version : String) (percentage duration_seconds : Nat) (config : Config) (t : Nat),
      ((monitor_deployment env version percentage duration_seconds config t).1.status = .success ↔
        (∀ i, i < num_polls duration_seconds (config.check_interval.getD 300) →
          poll_triggers env version (monitor_health_checks config) config (t + i) = false))
      ∧ ((monitor_deployment env version percentage duration_seconds config t).1.status = .success →
          (monitor_deployment env version percentage duration_seconds config t).1.metrics
            = ((List.range (num_polls duration_seconds (config.check_interval.getD 300))).map
                (fun i => monitor_poll env (t + i) (monitor_health_checks config) version)).getLastD []
          ∧ (monitor_deployment env version percentage duration_seconds config t).2
              = t + num_polls duration_seconds (config.check_interval.getD 300))
      ∧ (∀ i, i < num_polls duration_seconds (config.check_interval.getD 300) →
          poll_triggers env version (monitor_health_checks config) config (t + i) = true →
          (∀ j, j < i → poll_triggers env version (monitor_health_checks config) config (t + j) = false) →
          monitor_deployment env version percentage duration_seconds config t
            = (monitor_failed_result env version (monitor_health_checks config) percentage (t + i),
               t + i + 1)) := by
  intro env version percentage duration_seconds config t
  have hmd : monitor_deployment env version percentage duration_seconds config t
      = monitor_loop env version (monitor_health_checks config) config percentage
          (num_polls duration_seconds (config.check_interval.getD 300)) t [] := rfl
  have third : ∀ i, i < num_polls duration_seconds (config.check_interval.getD 300) →
      poll_triggers env version (monitor_health_checks config) config (t + i) = true →
      (∀ j, j < i → poll_triggers env version (monitor_health_checks config) config (t + j) = false) →
      monitor_deployment env version percentage duration_seconds config t
        = (monitor_failed_result env version (monitor_health_checks config) percentage (t + i),
           t + i + 1) := by
    intro i hi htrig hmin
    rw [hmd]
    exact monitor_loop_first_trigger env version (monitor_health_checks config) config percentage
      i _ t [] hi htrig hmin
  have forward : (∀ i, i < num_polls duration_seconds (config.check_interval.getD 300) →
      poll_triggers env version (monitor_health_checks config) config (t + i) = false) →
      (monitor_deployment env version percentage duration_seconds config t).1.status = .success
      ∧ (monitor_deployment env version percentage duration_seconds config t).1.metrics
          = ((List.range (num_polls duration_seconds (config.check_interval.getD 300))).map
              (fun i => monitor_poll env (t + i) (monitor_health_checks config) version)).getLastD []
      ∧ (monitor_deployment env version percentage duration_seconds config t).2
          = t + num_polls duration_seconds (config.check_interval.getD 300) := by
    intro hno
    rw [hmd, monitor_loop_no_trigger env version (monitor_health_checks config) config percentage
      _ t [] hno]
    exact ⟨rfl, by simp, rfl⟩
  have backward : (monitor_deployment env version percentage duration_seconds config t).1.status = .success →
      ∀ i, i < num_polls duration_seconds (config.check_interval.getD 300) →
        poll_triggers env version (monitor_health_checks config) config (t + i) = false := by
    intro hsucc
    by_contra hex
    push_neg at hex
    obtain ⟨i0, hi0, hne⟩ := hex
    have hP : ∃ i, poll_triggers env version (monitor_health_checks config) config (t + i) = true :=
      ⟨i0, by simpa using hne⟩
    have hk := Nat.find_spec hP
    have hkmin : ∀ j, j < Nat.find hP →
        poll_triggers env version (monitor_health_checks config) config (t + j) = false := by
      intro j hj
      have := Nat.find_min hP hj
      simpa using this
    have hklt : Nat.find hP < num_polls duration_seconds (config.check_interval.getD 300) :=
      lt_of_le_of_lt (Nat.find_min' hP (by simpa using hne)) hi0
    rw [third (Nat.find hP) hklt hk hkmin] at hsucc
    simp [monitor_failed_result] at hsucc
  exact ⟨⟨backward, fun h => (forward h).1⟩,
    fun hs => (forward (backward hs)).2, third⟩

/-- C2 witness: under `envOk` with `max_unhealthy_metrics = 1` the very
first poll fires the count trigger and monitoring fails immediately,
with only one instant polled. -/
theorem monitoring_window_spec_witness :
    poll_triggers envOk "1.0.0" (monitor_health_checks cfgMax1) cfgMax1 0 = true ∧
    monitor_deployment envOk "1.0.0" 5 1800 cfgMax1 0
      = (monitor_failed_result envOk "1.0.0" (monitor_health_checks cfgMax1) 5 0, 1) := by
  refine ⟨by decide, ?_⟩
  exact (monitoring_window_spec envOk "1.0.0" 5 1800 cfgMax1 0).2.2 0 (by decide) (by decide)
    (fun j hj => absurd hj (Nat.not_lt_zero j))

/-- C7 witness: the empty configuration omits `health_checks`. -/
theorem default_health_checks_spec_witness :
    monitor_health_checks cfg0 = ["crash_rate", "error_rate", "response_time", "user_satisfaction"] ∧
    green_health_checks cfg0 = [] ∧
    health_check_green_environment envOk "1.0.0" cfg0 0
      = ⟨"green_health_check", .success, [], 0, none⟩ := by
  have h := default_health_checks_spec cfg0 rfl
  exact ⟨h.1, h.2.1, h.2.2 envOk "1.0.0" 0⟩

/-! Claim C3: a failure stops the sequence. -/


lemma deploy_to_percentage_stage (env : Env) (version : String) (percentage : Nat) (stage : String)
    (config : Config) : (deploy_to_percentage env version percentage stage config).stage = stage := by
  unfold deploy_to_percentage
  dsimp only
  split <;> rfl

lemma deploy_to_percentage_status (env : Env) (version : String) (percentage : Nat) (stage : String)
    (config : Config) : (deploy_to_percentage env version percentage stage config).status = .success
      ∨ (deploy_to_percentage env version percentage stage config).status = .failed := by
  unfold deploy_to_percentage
  dsimp only
  split
  · exact Or.inl rfl
  · exact Or.inr rfl

lemma rollback_deployment_stage (env : Env) (version : String) (percentage : Nat) :
    (rollback_deployment env version percentage).stage = "rollback" := by
  unfold rollback_deployment
  dsimp only
  split <;> rfl

lemma rollback_deployment_status (env : Env) (version : String) (percentage : Nat) :
    (rollback_deployment env version percentage).status = .success
      ∨ (rollback_deployment env version percentage).status = .failed := by
  unfold rollback_deployment
  dsimp only
  split
  · exact Or.inl rfl
  · exact Or.inr rfl

lemma monitor_loop_stage_status (env : Env) (version : String) (checks : List String)
    (config : Config) (percentage : Nat) :
    ∀ (n t : Nat) (history : List (List HealthMetric)),
      (monitor_loop env version checks config percentage n t history).1.stage
          = monitoring_stage_name percentage
      ∧ ((monitor_loop env version checks config percentage n t history).1.status = .success
          ∨ (monitor_loop env version checks config percentage n t history).1.status = .failed) := by
  intro n
  induction n with
  | zero => intro t history; exact ⟨rfl, Or.inl rfl⟩
  | succ n ih =>
      intro t history
      by_cases h : poll_triggers env version checks config t = true
      · rw [monitor_loop_succ_trigger env version checks config percentage t n history h]
        exact ⟨rfl, Or.inr rfl⟩
      · rw [monitor_loop_succ_no_trigger env version checks config percentage t n history
          (by simpa using h)]
        exact ih (t + 1) (history ++ [monitor_poll env t checks version])

lemma monitor_deployment_stage (env : Env) (version : String) (percentage duration : Nat)
    (config : Config) (t : Nat) :
    (monitor_deployment env version percentage duration config t).1.stage
      = monitoring_stage_name percentage :=
  (monitor_loop_stage_status env version (monitor_health_checks config) config percentage _ t []).1

lemma monitor_deployment_status (env : Env) (version : String) (percentage duration : Nat)
    (config : Config) (t : Nat) :
    (monitor_deployment env version percentage duration config t).1.status = .success
      ∨ (monitor_deployment env version percentage duration config t).1.status = .failed :=
  (monitor_loop_stage_status env version (monitor_health_checks config) config percentage _ t []).2

lemma monitoring_stage_name_ne_full (percentage : Nat) :
    monitoring_stage_name percentage ≠ "full" := by
  intro h
  have hlen := congrArg String.length h
  rw [monitoring_stage_name, String.length_append, String.length_append] at hlen
  have h1 : "monitoring_".length = 11 := by decide
  have h2 : "pct".length = 3 := by decide
  have h3 : "full".length = 4 := by decide
  omega



lemma failed_stops_nil : failed_stops [] := by
  intro i r h _
  simp at h

lemma failed_stops_singleton (a : DeploymentResult) : failed_stops [a] := by
  intro i r h _
  match i, h with
  | 0, _ => exact Or.inl rfl
  | n + 1, h => simp at h

lemma failed_stops_pair_first_success (a b : DeploymentResult) (ha : a.status = .success) :
    failed_stops [a, b] := by
  intro i r h hf
  match i, h with
  | 0, h =>
      rw [show r = a by simpa using h.symm, ha] at hf
      cases hf
  | 1, _ => exact Or.inl rfl
  | n + 2, h => simp at h

lemma failed_stops_triple_rollback (a b c : DeploymentResult) (ha : a.status = .success)
    (hc : c.stage = "rollback" ∨ c.stage = "blue_rollback") : failed_stops [a, b, c] := by
  intro i r h hf
  match i, h with
  | 0, h =>
      rw [show r = a by simpa using h.symm, ha] at hf
      cases hf
  | 1, _ => exact Or.inr ⟨rfl, c, rfl, hc⟩
  | 2, _ => exact Or.inl rfl
  | n + 3, h => simp at h

lemma failed_stops_triple_success (a b c : DeploymentResult) (ha : a.status = .success)
    (hb : b.status = .success) : failed_stops [a, b, c] := by
  intro i r h hf
  match i, h with
  | 0, h =>
      rw [show r = a by simpa using h.symm, ha] at hf
      cases hf
  | 1, h =>
      rw [show r = b by simpa using h.symm, hb] at hf
      cases hf
  | 2, _ => exact Or.inl rfl
  | n + 3, h => simp at h

lemma failed_stops_quad_rollback (a b c d : DeploymentResult) (ha : a.status = .success)
    (hb : b.status = .success) (hd : d.stage = "rollback" ∨ d.stage = "blue_rollback") :
    failed_stops [a, b, c, d] := by
  intro i r h hf
  match i, h with
  | 0, h =>
      rw [show r = a by simpa using h.symm, ha] at hf
      cases hf
  | 1, h =>
      rw [show r = b by simpa using h.symm, hb] at hf
      cases hf
  | 2, _ => exact Or.inr ⟨rfl, d, rfl, hd⟩
  | 3, _ => exact Or.inl rfl
  | n + 4, h => simp at h

lemma failed_stops_cons_cons (a b : DeploymentResult) (l : List DeploymentResult)
    (ha : a.status = .success) (hb : b.status = .success) (hl : failed_stops l) :
    failed_stops (a :: b :: l) := by
  intro i r h hf
  match i, h with
  | 0, h =>
      rw [show r = a by simpa using h.symm, ha] at hf
      cases hf
  | 1, h =>
      rw [show r = b by simpa using h.symm, hb] at hf
      cases hf
  | n + 2, h =>
      rcases hl n r h hf with h1 | ⟨h2, r2, hr2, hst⟩
      · exact Or.inl (by simp [h1])
      · exact Or.inr ⟨by simp [h2], r2, hr2, hst⟩



lemma execute_immediate_failed_stops (env : Env) (version : String) (config : Config) :
    failed_stops (execute_immediate_deployment env version config) :=
  failed_stops_singleton _

lemma execute_canary_failed_stops (env : Env) (version : String) (config : Config) :
    failed_stops (execute_canary_deployment env version config) := by
  unfold execute_canary_deployment
  dsimp only
  split
  · exact failed_stops_singleton _
  · next hd =>
      have ha := not_not.mp hd
      split
      · exact failed_stops_triple_rollback _ _ _ ha (Or.inl (rollback_deployment_stage _ _ _))
      · next hm => exact failed_stops_triple_success _ _ _ ha (not_not.mp hm)

lemma execute_blue_green_failed_stops (env : Env) (version : String) (config : Config) :
    failed_stops (execute_blue_green_deployment env version config) := by
  unfold execute_blue_green_deployment
  dsimp only
  split
  · exact failed_stops_singleton _
  · next hg =>
      have ha := not_not.mp hg
      split
      · exact failed_stops_pair_first_success _ _ ha
      · next hh =>
          have hb := not_not.mp hh
          split
          · exact failed_stops_quad_rollback _ _ _ _ ha hb (Or.inr rfl)
          · next hs => exact failed_stops_triple_success _ _ _ ha hb

lemma gradual_loop_failed_stops (env : Env) (version : String) (config : Config) :
    ∀ (l : List StageConfig) (i t : Nat),
      failed_stops (gradual_stages_loop env version config i t l) := by
  intro l
  induction l with
  | nil => intro i t; exact failed_stops_nil
  | cons sc rest ih =>
      intro i t
      unfold gradual_stages_loop
      dsimp only
      split
      · exact failed_stops_singleton _
      · next hd =>
          have ha := not_not.mp hd
          split
          · exact failed_stops_triple_rollback _ _ _ ha (Or.inl (rollback_deployment_stage _ _ _))
          · next hm => exact failed_stops_cons_cons _ _ _ ha (not_not.mp hm) (ih _ _)

/-- C3.  A `Failed` stage result is always at the end of the run's
sequence or immediately followed by a single final rollback-stage
result; in particular a canary run whose monitoring stage fails returns
exactly `[deploy(canary), monitor(Failed), rollback]` and appends no
full-deployment stage. -/
theorem failed_result_stops_sequence :
    ∀ (env : Env) (strategy : DeploymentStrategy) (version : String) (config : Config),
      failed_stops (execute_deployment env strategy version config)
      ∧ (∀ m, (execute_canary_deployment env version config).get? 1 = some m →
          m.status = .failed →
          execute_canary_deployment env version config
            = [deploy_to_percentage env version (config.canary_percentage.getD 5) "canary" config,
               m, rollback_deployment env version (config.canary_percentage.getD 5)]
          ∧ (∀ r ∈ execute_canary_deployment env version config, r.stage ≠ "full")) := by
  intro env strategy version config
  constructor
  · cases strategy with
    | canary => exact execute_canary_failed_stops env version config
    | blue_green => exact execute_blue_green_failed_stops env version config
    | gradual => exact gradual_loop_failed_stops env version config _ 0 0
    | immediate => exact execute_immediate_failed_stops env version config
  · intro m hm1 hmf
    have hmeq : m = (monitor_deployment env version (config.canary_percentage.getD 5)
        (config.monitoring_duration.getD 1800) config 0).1 := by
      unfold execute_canary_deployment at hm1
      dsimp only at hm1
      split at hm1
      · simp at hm1
      · split at hm1 <;> simpa using hm1.symm
    have hdsucc : (deploy_to_percentage env version (config.canary_percentage.getD 5)
        "canary" config).status = .success := by
      unfold execute_canary_deployment at hm1
      dsimp only at hm1
      split at hm1
      · simp at hm1
      · next hd => exact not_not.mp hd
    have hmonfail : (monitor_deployment env version (config.canary_percentage.getD 5)
        (config.monitoring_duration.getD 1800) config 0).1.status ≠ .success := by
      rw [← hmeq, hmf]
      intro hc
      cases hc
    have hlist : execute_canary_deployment env version config
        = [deploy_to_percentage env version (config.canary_percentage.getD 5) "canary" config,
           m, rollback_deployment env version (config.canary_percentage.getD 5)] := by
      unfold execute_canary_deployment
      dsimp only
      rw [if_neg (not_not.mpr hdsucc), if_pos hmonfail, hmeq]
    refine ⟨hlist, ?_⟩
    intro r hr
    rw [hlist] at hr
    rcases List.mem_cons.mp hr with h1 | hr2
    · rw [h1, deploy_to_percentage_stage]
      decide
    · rcases List.mem_cons.mp hr2 with h2 | hr3
      · rw [h2, hmeq, monitor_deployment_stage]
        exact monitoring_stage_name_ne_full _
      · rcases List.mem_cons.mp hr3 with h3 | hr4
        · rw [h3, rollback_deployment_stage]
          decide
        · simp at hr4


/-- C3 witness: a canary run whose monitoring fails is exactly
deploy–monitor–rollback with no full stage, and a failed immediate
deployment's sequence ends at the failure. -/
theorem failed_result_stops_sequence_witness :
    (execute_canary_deployment envOk "2.0.0" cfgMax1
      = [deploy_to_percentage envOk "2.0.0" 5 "canary" cfgMax1,
         (monitor_deployment envOk "2.0.0" 5 1800 cfgMax1 0).1,
         rollback_deployment envOk "2.0.0" 5]
     ∧ (∀ r ∈ execute_canary_deployment envOk "2.0.0" cfgMax1, r.stage ≠ "full"))
    ∧ ((execute_deployment envUpdateRaises DeploymentStrategy.immediate "2.0.0" cfg0).length = 0 + 1
       ∨ ((execute_deployment envUpdateRaises DeploymentStrategy.immediate "2.0.0" cfg0).length = 0 + 2
          ∧ ∃ r2, (execute_deployment envUpdateRaises DeploymentStrategy.immediate "2.0.0" cfg0).get? (0 + 1) = some r2
              ∧ (r2.stage = "rollback" ∨ r2.stage = "blue_rollback"))) :=
  ⟨(failed_result_stops_sequence envOk DeploymentStrategy.canary "2.0.0" cfgMax1).2
      (monitor_deployment envOk "2.0.0" 5 1800 cfgMax1 0).1 (by decide) (by decide),
   (failed_result_stops_sequence envUpdateRaises DeploymentStrategy.immediate "2.0.0" cfg0).1
      0 ⟨"immediate", .failed, [], 0, some "Play Store API unavailable"⟩ (by decide) (by decide)⟩

/-! Claim C9: blue-green branching.  Claim C10: result statuses. -/


lemma deploy_to_green_environment_stage (env : Env) (version : String) :
    (deploy_to_green_environment env version).stage = "green_deployment" := by
  unfold deploy_to_green_environment
  dsimp only
  split <;> rfl

lemma deploy_to_green_environment_status (env : Env) (version : String) :
    (deploy_to_green_environment env version).status = .success
      ∨ (deploy_to_green_environment env version).status = .failed := by
  unfold deploy_to_green_environment
  dsimp only
  split
  · exact Or.inl rfl
  · exact Or.inr rfl

lemma health_check_green_environment_stage (env : Env) (version : String) (config : Config)
    (t : Nat) : (health_check_green_environment env version config t).stage = "green_health_check" :=
  rfl

lemma health_check_green_environment_status (env : Env) (version : String) (config : Config)
    (t : Nat) : (health_check_green_environment env version config t).status = .success
      ∨ (health_check_green_environment env version config t).status = .failed := by
  unfold health_check_green_environment
  dsimp only
  split
  · exact Or.inl rfl
  · exact Or.inr rfl

lemma switch_to_green_environment_stage (env : Env) (version : String) :
    (switch_to_green_environment env version).stage = "traffic_switch" := by
  unfold switch_to_green_environment
  dsimp only
  split <;> rfl

lemma switch_to_green_environment_status (env : Env) (version : String) :
    (switch_to_green_environment env version).status = .success
      ∨ (switch_to_green_environment env version).status = .failed := by
  unfold switch_to_green_environment
  dsimp only
  split
  · exact Or.inl rfl
  · exact Or.inr rfl

/-- C9.  In a blue-green run, if the green-environment health-check
stage (index 1) is `Failed`, the sequence stops there: no
traffic-switch stage is attempted and no rollback-to-blue result is
appended; and a `blue_rollback` result appears iff the traffic-switch
stage itself (index 2) failed. -/
theorem blue_green_rollback_spec :
    ∀ (env : Env) (version : String) (config : Config),
      (∀ h, (execute_blue_green_deployment env version config).get? 1 = some h →
        h.status = .failed →
        (execute_blue_green_deployment env version config).length = 2
        ∧ (∀ r ∈ execute_blue_green_deployment env version config,
            r.stage ≠ "traffic_switch" ∧ r.stage ≠ "blue_rollback"))
      ∧ ((∃ r ∈ execute_blue_green_deployment env version config, r.stage = "blue_rollback") ↔
          (∃ s, (execute_blue_green_deployment env version config).get? 2 = some s
            ∧ s.stage = "traffic_switch" ∧ s.status = .failed)) := by
  intro env version config
  unfold execute_blue_green_deployment
  dsimp only
  split
  · next hg =>
      constructor
      · intro h hh _
        simp at hh
      · constructor
        · rintro ⟨r, hr, hst⟩
          rw [List.mem_singleton.mp hr, deploy_to_green_environment_stage] at hst
          exact absurd hst (by decide)
        · rintro ⟨s, hs, _⟩
          simp at hs
  · next hg =>
      split
      · next hh =>
          constructor
          · intro h hh1 _
            refine ⟨rfl, ?_⟩
            intro r hr
            rcases List.mem_cons.mp hr with h1 | hr2
            · rw [h1, deploy_to_green_environment_stage]
              exact ⟨by decide, by decide⟩
            · rw [List.mem_singleton.mp hr2, health_check_green_environment_stage]
              exact ⟨by decide, by decide⟩
          · constructor
            · rintro ⟨r, hr, hst⟩
              rcases List.mem_cons.mp hr with h1 | hr2
              · rw [h1, deploy_to_green_environment_stage] at hst
                exact absurd hst (by decide)
              · rw [List.mem_singleton.mp hr2, health_check_green_environment_stage] at hst
                exact absurd hst (by decide)
            · rintro ⟨s, hs, _⟩
              simp at hs
      · next hh =>
          have hhs := not_not.mp hh
          split
          · next hs =>
              have hsf := Or.resolve_left (switch_to_green_environment_status env version) hs
              constructor
              · intro h hh1 hf
                rw [show h = health_check_green_environment env version config 0 by
                  simpa using hh1.symm, hhs] at hf
                cases hf
              · constructor
                · intro _
                  exact ⟨switch_to_green_environment env version, rfl,
                    switch_to_green_environment_stage env version, hsf⟩
                · intro _
                  refine ⟨rollback_to_blue_environment, ?_, rfl⟩
                  simp [List.mem_cons]
          · next hs =>
              have hss := not_not.mp hs
              constructor
              · intro h hh1 hf
                rw [show h = health_check_green_environment env version config 0 by
                  simpa using hh1.symm, hhs] at hf
                cases hf
              · constructor
                · rintro ⟨r, hr, hst⟩
                  rcases List.mem_cons.mp hr with h1 | hr2
                  · rw [h1, deploy_to_green_environment_stage] at hst
                    exact absurd hst (by decide)
                  · rcases List.mem_cons.mp hr2 with h2 | hr3
                    · rw [h2, health_check_green_environment_stage] at hst
                      exact absurd hst (by decide)
                    · rw [List.mem_singleton.mp hr3, switch_to_green_environment_stage] at hst
                      exact absurd hst (by decide)
                · rintro ⟨s, hs2, _, hsf⟩
                  rw [show s = switch_to_green_environment env version by simpa using hs2.symm,
                    hss] at hsf
                  cases hsf



/-- C9 witness: a failing green health check stops the run after two
results, and a raising promotion call produces the rollback-to-blue
stage. -/
theorem blue_green_rollback_spec_witness :
    ((execute_blue_green_deployment envOk "2.0.0" cfgSatOnly).length = 2
     ∧ (∀ r ∈ execute_blue_green_deployment envOk "2.0.0" cfgSatOnly,
         r.stage ≠ "traffic_switch" ∧ r.stage ≠ "blue_rollback"))
    ∧ (∃ r ∈ execute_blue_green_deployment envPromoteRaises "2.0.0" cfg0,
        r.stage = "blue_rollback") :=
  ⟨(blue_green_rollback_spec envOk "2.0.0" cfgSatOnly).1
      (health_check_green_environment envOk "2.0.0" cfgSatOnly 0) (by decide) (by decide),
   (blue_green_rollback_spec envPromoteRaises "2.0.0" cfg0).2.mpr
      ⟨⟨"traffic_switch", .failed, [], 0, some "promotion failed"⟩, by decide, by decide, by decide⟩⟩

lemma rollback_to_blue_environment_status :
    rollback_to_blue_environment.status = .success := rfl

lemma gradual_loop_status (env : Env) (version : String) (config : Config) :
    ∀ (l : List StageConfig) (i t : Nat),
      ∀ r ∈ gradual_stages_loop env version config i t l,
        r.status = .success ∨ r.status = .failed := by
  intro l
  induction l with
  | nil => intro i t r hr; simp [gradual_stages_loop] at hr
  | cons sc rest ih =>
      intro i t r hr
      unfold gradual_stages_loop at hr
      dsimp only at hr
      split at hr
      · rw [List.mem_singleton.mp hr]
        exact deploy_to_percentage_status env version sc.percentage _ config
      · split at hr
        · rcases List.mem_cons.mp hr with h1 | hr2
          · rw [h1]; exact deploy_to_percentage_status env version sc.percentage _ config
          · rcases List.mem_cons.mp hr2 with h2 | hr3
            · rw [h2]; exact monitor_deployment_status env version sc.percentage _ config t
            · rw [List.mem_singleton.mp hr3]
              exact rollback_deployment_status env version sc.percentage
        · rcases List.mem_cons.mp hr with h1 | hr2
          · rw [h1]; exact deploy_to_percentage_status env version sc.percentage _ config
          · rcases List.mem_cons.mp hr2 with h2 | hr3
            · rw [h2]; exact monitor_deployment_status env version sc.percentage _ config t
            · exact ih _ _ r hr3

/-- C10.  Every result appended by `execute_deployment` has status
`Success` or `Failed` — `Pending`, `InProgress` and `RolledBack` never
appear; a completed rollback is recorded as a `Success` result named
`rollback` (or `blue_rollback`), not as `RolledBack`. -/
theorem statuses_binary_spec :
    (∀ (env : Env) (strategy : DeploymentStrategy) (version : String) (config : Config),
      ∀ r ∈ execute_deployment env strategy version config,
        r.status = .success ∨ r.status = .failed)
    ∧ (∀ (env : Env) (version : String) (percentage : Nat),
        (rollback_deployment env version percentage).stage = "rollback"
        ∧ ((update_play_store_rollout env "1.0.0" percentage).success = true →
            (rollback_deployment env version percentage).status = .success))
    ∧ (rollback_to_blue_environment.stage = "blue_rollback"
        ∧ rollback_to_blue_environment.status = .success) := by
  refine ⟨?_, ?_, rfl, rfl⟩
  · intro env strategy version config r hr
    cases strategy with
    | canary =>
        unfold execute_deployment execute_canary_deployment at hr
        dsimp only at hr
        split at hr
        · rw [List.mem_singleton.mp hr]
          exact deploy_to_percentage_status env version _ "canary" config
        · split at hr
          · rcases List.mem_cons.mp hr with h1 | hr2
            · rw [h1]; exact deploy_to_percentage_status env version _ "canary" config
            · rcases List.mem_cons.mp hr2 with h2 | hr3
              · rw [h2]; exact monitor_deployment_status env version _ _ config 0
              · rw [List.mem_singleton.mp hr3]
                exact rollback_deployment_status env version _
          · rcases List.mem_cons.mp hr with h1 | hr2
            · rw [h1]; exact deploy_to_percentage_status env version _ "canary" config
            · rcases List.mem_cons.mp hr2 with h2 | hr3
              · rw [h2]; exact monitor_deployment_status env version _ _ config 0
              · rw [List.mem_singleton.mp hr3]
                exact deploy_to_percentage_status env version 100 "full" config
    | blue_green =>
        unfold execute_deployment execute_blue_green_deployment at hr
        dsimp only at hr
        split at hr
        · rw [List.mem_singleton.mp hr]
          exact deploy_to_green_environment_status env version
        · split at hr
          · rcases List.mem_cons.mp hr with h1 | hr2
            · rw [h1]; exact deploy_to_green_environment_status env version
            · rw [List.mem_singleton.mp hr2]
              exact health_check_green_environment_status env version config 0
          · split at hr
            · rcases List.mem_cons.mp hr with h1 | hr2
              · rw [h1]; exact deploy_to_green_environment_status env version
              · rcases List.mem_cons.mp hr2 with h2 | hr3
                · rw [h2]; exact health_check_green_environment_status env version config 0
                · rcases List.mem_cons.mp hr3 with h3 | hr4
                  · rw [h3]; exact switch_to_green_environment_status env version
                  · rw [List.mem_singleton.mp hr4]
                    exact Or.inl rollback_to_blue_environment_status
            · rcases List.mem_cons.mp hr with h1 | hr2
              · rw [h1]; exact deploy_to_green_environment_status env version
              · rcases List.mem_cons.mp hr2 with h2 | hr3
                · rw [h2]; exact health_check_green_environment_status env version config 0
                · rw [List.mem_singleton.mp hr3]
                  exact switch_to_green_environment_status env version
    | gradual => exact gradual_loop_status env version config _ 0 0 r hr
    | immediate =>
        rw [List.mem_singleton.mp hr]
        exact deploy_to_percentage_status env version 100 "immediate" config
  · intro env version percentage
    refine ⟨rollback_deployment_stage env version percentage, ?_⟩
    intro hsucc
    unfold rollback_deployment
    dsimp only
    rw [if_pos]
    exact hsucc

/-- C10 witness: a concrete member of an executed sequence, and a
completed rollback recorded as `Success`/`"rollback"`. -/
theorem statuses_binary_spec_witness :
    ((⟨"immediate", .success, [], 0, none⟩ : DeploymentResult).status = .success
      ∨ (⟨"immediate", .success, [], 0, none⟩ : DeploymentResult).status = .failed)
    ∧ (rollback_deployment envOk "2.0.0" 5).stage = "rollback"
    ∧ (rollback_deployment envOk "2.0.0" 5).status = .success :=
  ⟨statuses_binary_spec.1 envOk DeploymentStrategy.immediate "2.0.0" cfg0
      ⟨"immediate", .success, [], 0, none⟩ (by decide),
   (statuses_binary_spec.2.1 envOk "2.0.0" 5).1,
   (statuses_binary_spec.2.1 envOk "2.0.0" 5).2 (by decide)⟩


/-! Claim C8: percentage monotonicity.  Claim C4: error handling. -/


lemma gradual_success_percentages_sublist (env : Env) (version : String) (config : Config) :
    ∀ (l : List StageConfig) (i t : Nat),
      List.Sublist (gradual_success_percentages env version config i t l)
        (l.map (fun sc => sc.percentage)) := by
  intro l
  induction l with
  | nil => intro i t; simp [gradual_success_percentages]
  | cons sc rest ih =>
      intro i t
      unfold gradual_success_percentages
      dsimp only
      split
      · exact List.nil_sublist _
      · split
        · exact (List.nil_sublist _).cons₂ _
        · exact (ih _ _).cons₂ _

lemma canary_success_percentages_cases (env : Env) (version : String) (config : Config) :
    canary_success_percentages env version config = []
    ∨ canary_success_percentages env version config = [config.canary_percentage.getD 5]
    ∨ canary_success_percentages env version config = [config.canary_percentage.getD 5, 100] := by
  unfold canary_success_percentages
  dsimp only
  split
  · exact Or.inl rfl
  · split
    · exact Or.inr (Or.inl rfl)
    · split
      · exact Or.inr (Or.inl rfl)
      · exact Or.inr (Or.inr rfl)

/-- C8 counterexample.  The source applies a user-supplied stage list
as given: with stages `[{50%}, {25%}]` and all collaborators healthy,
both stages complete successfully and the successful stage percentages
are 50 then 25 — decreasing. -/
theorem percentages_monotone_counterexample :
    gradual_success_percentages envOk "2.0.0" cfgDecreasing 0 0
        (cfgDecreasing.stages.getD default_stages) = [50, 25]
    ∧ ¬ List.Chain' (· ≤ ·) ([50, 25] : List Nat)
    ∧ (∀ r ∈ execute_deployment envOk DeploymentStrategy.gradual "2.0.0" cfgDecreasing,
        r.status = DeploymentStatus.success) :=
  ⟨by decide, by simp [List.chain'_cons], by decide⟩

/-- C8 as amended.  When the configured percentages are themselves
non-decreasing (as the built-in defaults are) the successful stage
percentages of a gradual run are non-decreasing, being a sublist of the
configured list in order; and a canary run's successful percentages are
non-decreasing whenever the configured canary percentage is at most
100. -/
theorem percentages_monotone_spec :
    (∀ (env : Env) (version : String) (config : Config),
      List.Chain' (· ≤ ·) ((config.stages.getD default_stages).map (fun sc => sc.percentage)) →
      List.Chain' (· ≤ ·)
        (gradual_success_percentages env version config 0 0 (config.stages.getD default_stages)))
    ∧ (∀ (env : Env) (version : String) (config : Config),
      config.canary_percentage.getD 5 ≤ 100 →
      List.Chain' (· ≤ ·) (canary_success_percentages env version config)) := by
  constructor
  · intro env version config h
    exact h.sublist (gradual_success_percentages_sublist env version config _ 0 0)
  · intro env version config h
    rcases canary_success_percentages_cases env version config with h1 | h1 | h1 <;> rw [h1]
    · exact List.chain'_nil
    · exact List.chain'_singleton _
    · exact List.chain'_pair.mpr h

/-- C8 witness: the default configuration's stage ramp is
non-decreasing, and so are the successful percentages of concrete runs
under it. -/
theorem percentages_monotone_spec_witness :
    List.Chain' (· ≤ ·) ((cfg0.stages.getD default_stages).map (fun sc => sc.percentage))
    ∧ List.Chain' (· ≤ ·)
        (gradual_success_percentages envOk "2.0.0" cfg0 0 0 (cfg0.stages.getD default_stages))
    ∧ List.Chain' (· ≤ ·) (canary_success_percentages envOk "2.0.0" cfg0) :=
  ⟨by simp [cfg0, default_stages, List.chain'_cons],
   percentages_monotone_spec.1 envOk "2.0.0" cfg0
     (by simp [cfg0, default_stages, List.chain'_cons]),
   percentages_monotone_spec.2 envOk "2.0.0" cfg0 (by decide)⟩



/-- C4 counterexample.  The claim says each exception raised by an
underlying action (including verification) becomes a `Failed` result
carrying the exception's message; but a raising verification call is
degraded to a `False` verdict inside `_verify_deployment`, so the stage
fails with the generic message, not the exception's. -/
theorem exception_message_not_preserved :
    execute_deployment envVerifyRaises DeploymentStrategy.immediate "2.0.0" cfg0
      = [⟨"immediate", .failed, [], 0, some "Deployment verification failed"⟩]
    ∧ envVerifyRaises.verify "2.0.0" 100 = .error "network timeout"
    ∧ ("Deployment verification failed" : String) ≠ "network timeout" :=
  ⟨by decide, rfl, by decide⟩

/-- C4 as amended.  `execute_deployment` is total for the four
strategies and never raises.  Exceptions from the rollout-update,
internal-track-deploy and production-promote actions are caught at
their stage boundary and become `Failed` results carrying the
exception's message.  A verification exception is degraded to a false
verdict, so the stage fails with the generic verification message; a
metric-query exception is degraded to the value `0.0` inside the query
helper and produces no `Failed` result by itself.  Only a strategy
value outside the four enum members raises, before any stage
executes. -/
theorem execute_error_handling_spec :
    (∀ (env : Env) (version : String) (percentage : Nat) (stage : String) (config : Config)
        (e : String),
      env.update_rollout version percentage = .error e →
      deploy_to_percentage env version percentage stage config
        = ⟨stage, .failed, [], 0, some e⟩)
    ∧ (∀ (env : Env) (version e : String),
      env.deploy_internal version = .error e →
      deploy_to_green_environment env version = ⟨"green_deployment", .failed, [], 0, some e⟩)
    ∧ (∀ (env : Env) (version e : String),
      env.promote_production version = .error e →
      switch_to_green_environment env version = ⟨"traffic_switch", .failed, [], 0, some e⟩)
    ∧ (∀ (env : Env) (version : String) (percentage : Nat) (stage : String) (config : Config)
        (e : String),
      env.update_rollout version percentage = .ok () →
      env.verify version percentage = .error e →
      deploy_to_percentage env version percentage stage config
        = ⟨stage, .failed, [], 0, some "Deployment verification failed"⟩)
    ∧ (∀ (q : QuerySource) (metric_type version e : String),
      q metric_type version = .error e → query_metric q metric_type version = 0)
    ∧ (∀ (env : Env) (strategy : DeploymentStrategy) (version : String) (config : Config),
      execute_deployment_checked env (some strategy) version config
        = .ok (execute_deployment env strategy version config))
    ∧ (∀ (env : Env) (version : String) (config : Config),
      execute_deployment_checked env none version config
        = .error "Unsupported deployment strategy") := by
  refine ⟨?_, ?_, ?_, ?_, ?_, fun _ _ _ _ => rfl, fun _ _ _ => rfl⟩
  · intro env version percentage stage config e h
    simp [deploy_to_percentage, update_play_store_rollout, h]
  · intro env version e h
    simp [deploy_to_green_environment, deploy_to_internal_track, h]
  · intro env version e h
    simp [switch_to_green_environment, promote_to_production_track, h]
  · intro env version percentage stage config e h1 h2
    simp [deploy_to_percentage, update_play_store_rollout, verify_deployment, h1, h2]
  · intro q metric_type version e h
    exact query_metric_error q metric_type version e h

/-- C4 witness: a raising rollout update yields a `Failed` result
with its message, and the checked dispatcher returns `ok` for a
supported strategy and raises only for an unsupported one. -/
theorem execute_error_handling_spec_witness :
    deploy_to_percentage envUpdateRaises "2.0.0" 5 "canary" cfg0
      = ⟨"canary", .failed, [], 0, some "Play Store API unavailable"⟩
    ∧ execute_deployment_checked envOk (some DeploymentStrategy.immediate) "2.0.0" cfg0
        = .ok (execute_deployment envOk DeploymentStrategy.immediate "2.0.0" cfg0)
    ∧ execute_deployment_checked envOk none "2.0.0" cfg0
        = .error "Unsupported deployment strategy" :=
  ⟨execute_error_handling_spec.1 envUpdateRaises "2.0.0" 5 "canary" cfg0
      "Play Store API unavailable" rfl,
   execute_error_handling_spec.2.2.2.2.2.1 envOk DeploymentStrategy.immediate "2.0.0" cfg0,
   execute_error_handling_spec.2.2.2.2.2.2 envOk "2.0.0" cfg0⟩


end ProgressiveDeployment
